import Mathlib

/-!
Shallow embedding of the risk-scoring aggregation engine of the
`RugPullDetector` class (rug-pull-detector repository, `src/tokenResolver.js`,
lines 724-971).  JavaScript strings are modelled as `List Char`; JavaScript
numbers as `JSNum` (an exact rational, or NaN — exact real arithmetic stands
in for IEEE doubles); objects with possibly-missing fields use `Option`.
Asynchronous collaborator calls are modelled as explicit function parameters
returning `Option` / `Except`, with `Promise.all`'s fail-on-first-rejection
join modelled in argument order.
-/

attribute [local semireducible] Rat.mul Rat.inv Rat.add Rat.sub

/-- JSStr is the model of a JavaScript string: its sequence of characters. -/
abbrev JSStr := List Char

/-- JSNum models a JavaScript number: an exact rational, or NaN. -/
inductive JSNum where
  | num (q : ℚ)
  | nan
deriving DecidableEq, Repr

/-- JSNum.add models JavaScript `+` on numbers: NaN is absorbing. -/
def JSNum.add : JSNum → JSNum → JSNum
  | .num a, .num b => .num (a + b)
  | _, _ => .nan

/-- JSNum.mul models JavaScript `*` on numbers: NaN is absorbing. -/
def JSNum.mul : JSNum → JSNum → JSNum
  | .num a, .num b => .num (a * b)
  | _, _ => .nan

/-- JSNum.maxJ models `Math.max` on two numbers: NaN if either is NaN. -/
def JSNum.maxJ : JSNum → JSNum → JSNum
  | .num a, .num b => .num (max a b)
  | _, _ => .nan

/-- JSNum.minJ models `Math.min` on two numbers: NaN if either is NaN. -/
def JSNum.minJ : JSNum → JSNum → JSNum
  | .num a, .num b => .num (min a b)
  | _, _ => .nan

/-- JSNum.geB models the JavaScript comparison `x >= c` (false on NaN). -/
def JSNum.geB : JSNum → ℚ → Bool
  | .num a, c => decide (c ≤ a)
  | .nan, _ => false

/-- jsRound models `Math.round`: half-up (toward +infinity) rounding, NaN kept. -/
def jsRound : JSNum → JSNum
  | .num q => .num ((⌊q + 1/2⌋ : ℤ) : ℚ)
  | .nan => .nan

/-- SubAnalysis models the object a sub-analyzer resolves with; the aggregator
reads only `riskScore` and `redFlags`, either of which may be absent
(`undefined` in JavaScript). -/
structure SubAnalysis where
  riskScore : Option JSNum
  redFlags : Option (List JSStr)
deriving DecidableEq, Repr

/-- jsOrZero models the JavaScript expression `x.riskScore || 0`: `undefined`,
NaN and `0` are falsy and give the default `0`. -/
def jsOrZero : Option JSNum → JSNum
  | none => .num 0
  | some .nan => .num 0
  | some (.num q) => if q = 0 then .num 0 else .num q

/-- orNil models the JavaScript expression `x.redFlags || []`. -/
def orNil : Option (List JSStr) → List JSStr
  | none => []
  | some l => l

/-- normalizeScore is `RugPullDetector.normalizeScore`:
`Math.min(100, Math.max(0, score))`. -/
def normalizeScore (score : JSNum) : JSNum :=
  JSNum.minJ (.num 100) (JSNum.maxJ (.num 0) score)

/-- calculateRiskScore is `RugPullDetector.calculateRiskScore`: the weighted sum
of the three normalized sub-scores, each guarded by `|| 0`, with weights
0.5 / 0.3 / 0.2. -/
def calculateRiskScore (onChain social code : SubAnalysis) : JSNum :=
  let onChainWeight : ℚ := 1/2
  let socialWeight : ℚ := 3/10
  let codeWeight : ℚ := 1/5
  let onChainScore := normalizeScore (jsOrZero onChain.riskScore)
  let socialScore := normalizeScore (jsOrZero social.riskScore)
  let codeScore := normalizeScore (jsOrZero code.riskScore)
  JSNum.add (JSNum.add (JSNum.mul onChainScore (.num onChainWeight))
      (JSNum.mul socialScore (.num socialWeight)))
    (JSNum.mul codeScore (.num codeWeight))

/-- getRiskLevel is `RugPullDetector.getRiskLevel`: the four inclusive-lower
threshold comparisons, with `SAFE` as the fall-through. -/
def getRiskLevel (score : JSNum) : JSStr :=
  if score.geB 80 then "CRITICAL".toList
  else if score.geB 60 then "HIGH".toList
  else if score.geB 40 then "MEDIUM".toList
  else if score.geB 20 then "LOW".toList
  else "SAFE".toList

/-- normQ is the specification-side clamp `min(100, max(0, s))` on plain
rationals, used to state what the code's normalization computes. -/
def normQ (s : ℚ) : ℚ := min 100 (max 0 s)

/-- digitC renders one decimal digit as a character. -/
def digitC (d : ℕ) : Char := Char.ofNat (48 + d)

/-- natDigitsRevF collects the decimal digits of `m`, least significant first,
with an explicit fuel argument to keep the recursion structural. -/
def natDigitsRevF : ℕ → ℕ → List Char
  | _, 0 => []
  | 0, _ + 1 => []
  | fuel + 1, m + 1 => digitC ((m + 1) % 10) :: natDigitsRevF fuel ((m + 1) / 10)

/-- natToStr renders a natural number the way JavaScript renders an
integer-valued number in a template string. -/
def natToStr (n : ℕ) : JSStr :=
  if n = 0 then ['0'] else (natDigitsRevF n n).reverse

/-- intToStr renders an integer the way JavaScript renders an integer-valued
number in a template string. -/
def intToStr (i : ℤ) : JSStr :=
  if i < 0 then '-' :: natToStr i.natAbs else natToStr i.toNat

/-- jsRoundStr renders `Math.round(x)` inside a template string; since the
rounded value is an integer (or NaN), decimal integer rendering applies. -/
def jsRoundStr : JSNum → JSStr
  | .num q => intToStr ⌊q + 1/2⌋
  | .nan => "NaN".toList

/-- isPrefixB decides whether the first list starts the second. -/
def isPrefixB : List Char → List Char → Bool
  | [], _ => true
  | _ :: _, [] => false
  | a :: n, b :: h => a == b && isPrefixB n h

/-- containsSub models JavaScript `hay.includes(needle)`: substring search. -/
def containsSub : List Char → List Char → Bool
  | n, [] => n.isEmpty
  | n, c :: t => isPrefixB n (c :: t) || containsSub n t

/-- onChainFlagStep is the body of the `onChain.redFlags.forEach` loop of
`generateRecommendations`: up to three conditional `push` calls per flag,
triggered by case-sensitive substring tests. -/
def onChainFlagStep (acc : List JSStr) (flag : JSStr) : List JSStr :=
  (acc ++ (if containsSub "mint authority".toList flag then
    ["Mint authority not renounced - unlimited token creation possible".toList]
  else []))
  ++ (if containsSub "liquidity".toList flag || containsSub "LP".toList flag then
    ["Liquidity not locked - developers can remove funds anytime".toList]
  else [])
  ++ (if containsSub "concentration".toList flag ||
        containsSub "distribution".toList flag then
    ["High token concentration - single wallet controls majority supply".toList]
  else [])

/-- generateRecommendations is `RugPullDetector.generateRecommendations`:
two tier headlines chosen by the four-band thresholds, then per-red-flag
substring-triggered warnings (JavaScript `Array.prototype.forEach` with
`push` is a left fold appending), then one social and one code warning. -/
def generateRecommendations (riskScore : JSNum) (onChain social code : SubAnalysis) :
    List JSStr :=
  let recommendations : List JSStr :=
    if riskScore.geB 80 then
      ["DO NOT BUY - HIGH RUG PULL RISK".toList, "Avoid this token completely".toList]
    else if riskScore.geB 60 then
      ["EXTREME CAUTION - High risk detected".toList,
        "Only invest what you can afford to lose".toList]
    else if riskScore.geB 40 then
      ["MODERATE CAUTION - Some red flags present".toList,
        "Research thoroughly before investing".toList]
    else
      ["APPEARS LEGITIMATE - Low risk detected".toList,
        "Still exercise normal caution with new tokens".toList]
  let recommendations :=
    match onChain.redFlags with
    | none => recommendations
    | some flags =>
      if flags.length > 0 then
        flags.foldl onChainFlagStep recommendations
      else recommendations
  let recommendations :=
    match social.redFlags with
    | none => recommendations
    | some flags =>
      if flags.length > 0 then
        recommendations ++ ["Social media shows suspicious activity".toList]
      else recommendations
  match code.redFlags with
  | none => recommendations
  | some flags =>
    if flags.length > 0 then
      recommendations ++ ["Contract contains potential vulnerabilities".toList]
    else recommendations

/-- generateSummary is `RugPullDetector.generateSummary`: headline with tier
and rounded score, an optional key-red-flags section (first five flags, then
an overflow line), and a final one-line recommendation. -/
def generateSummary (riskScore : JSNum) (onChain social code : SubAnalysis) : JSStr :=
  let level := getRiskLevel riskScore
  let summary := "🚨 RUG PULL ALERT: This token has ".toList ++ level
    ++ " RUG PULL RISK (".toList ++ jsRoundStr riskScore ++ "/100)\n\n".toList
  let allRedFlags := orNil onChain.redFlags ++ orNil social.redFlags ++ orNil code.redFlags
  let summary :=
    if allRedFlags.length > 0 then
      let s1 := summary ++ "🔴 KEY RED FLAGS:\n".toList
      let s2 := (allRedFlags.take 5).foldl
        (fun acc flag => acc ++ ("- ".toList ++ flag ++ "\n".toList)) s1
      let s3 :=
        if allRedFlags.length > 5 then
          s2 ++ ("- ...and ".toList ++ natToStr (allRedFlags.length - 5)
            ++ " more issues\n".toList)
        else s2
      s3 ++ "\n".toList
    else summary
  let summary := summary ++ "💡 RECOMMENDATION: ".toList
  if riskScore.geB 80 then summary ++ "DO NOT BUY".toList
  else if riskScore.geB 60 then summary ++ "EXTREME CAUTION".toList
  else if riskScore.geB 40 then summary ++ "MODERATE CAUTION".toList
  else summary ++ "APPEARS SAFE".toList

/-- TokenInfo models the object the chain collaborator's `getTokenInfo`
resolves with; the orchestrator reads only `symbol`, which may be absent. -/
structure TokenInfo where
  symbol : Option JSStr
deriving DecidableEq, Repr

/-- jsOrStr models the JavaScript expression `tokenInfo.symbol || tokenMint`:
`undefined` and the empty string are falsy. -/
def jsOrStr : Option JSStr → JSStr → JSStr
  | none, d => d
  | some s, d => if s = [] then d else s

/-- Analysis is the `analysis` sub-object of the final report. -/
structure Analysis where
  onChain : SubAnalysis
  social : SubAnalysis
  code : SubAnalysis
deriving DecidableEq, Repr

/-- AnalysisReport is the report object compiled by `analyzeToken`
(step 5 of the source); `timestamp` is the serialized wall-clock instant,
supplied as a parameter of the embedding. -/
structure AnalysisReport where
  token : JSStr
  mintAddress : JSStr
  timestamp : JSStr
  riskScore : JSNum
  riskLevel : JSStr
  analysis : Analysis
  recommendations : List JSStr
  summary : JSStr
deriving DecidableEq, Repr

/-- buildReport is the report construction of `analyzeToken` (steps 3-5):
risk score, rounded score, level from the unrounded score, recommendations
and summary. -/
def buildReport (tokenInfo : TokenInfo) (tokenMint timestamp : JSStr)
    (onChainResult socialResult codeResult : SubAnalysis) : AnalysisReport :=
  let riskScore := calculateRiskScore onChainResult socialResult codeResult
  { token := jsOrStr tokenInfo.symbol tokenMint
    mintAddress := tokenMint
    timestamp := timestamp
    riskScore := jsRound riskScore
    riskLevel := getRiskLevel riskScore
    analysis := { onChain := onChainResult, social := socialResult, code := codeResult }
    recommendations := generateRecommendations riskScore onChainResult socialResult codeResult
    summary := generateSummary riskScore onChainResult socialResult codeResult }

/-- notFoundMsg is the message of the error thrown when `getTokenInfo`
resolves to null: `Token not found or invalid`. -/
def notFoundMsg : JSStr := "Token not found or invalid".toList

/-- analyzeToken is `RugPullDetector.analyzeToken` with its collaborators
passed explicitly: metadata lookup first (failing fast when it resolves to
null), then the three sub-analyses joined as by `Promise.all` — the first
rejection, in argument order, rejects the whole call; the surrounding
try/catch in the source only logs and rethrows, so it is the identity on the
result. -/
def analyzeToken (tokenMint now : JSStr)
    (getTokenInfo : JSStr → Option TokenInfo)
    (analyzeTokenEconomics analyzeSocialSignals analyzeCode :
      JSStr → Except JSStr SubAnalysis) : Except JSStr AnalysisReport :=
  match getTokenInfo tokenMint with
  | none => .error notFoundMsg
  | some tokenInfo =>
    match analyzeTokenEconomics tokenMint, analyzeSocialSignals tokenMint,
        analyzeCode tokenMint with
    | .error e, _, _ => .error e
    | .ok _, .error e, _ => .error e
    | .ok _, .ok _, .error e => .error e
    | .ok onChainResult, .ok socialResult, .ok codeResult =>
      .ok (buildReport tokenInfo tokenMint now onChainResult socialResult codeResult)


/-- specRound is the specification's round-half-up to the nearest integer. -/
def specRound (q : ℚ) : ℤ := ⌊q + 1/2⌋

/-- specAggregate restates the specified aggregation algorithm:
`round(normalize(onChain) * 0.5 + normalize(social) * 0.3 + normalize(code) * 0.2)`. -/
def specAggregate (a b c : ℚ) : ℤ :=
  specRound (normQ a * (1/2) + normQ b * (3/10) + normQ c * (1/5))

/-- normalizeScore on a present numeric sub-score computes the rational clamp. -/
theorem normalizeScore_jsOrZero_num (a : ℚ) :
    normalizeScore (jsOrZero (some (.num a))) = .num (normQ a) := by
  by_cases ha : a = 0 <;>
    simp [jsOrZero, ha, normalizeScore, JSNum.maxJ, JSNum.minJ, normQ]

/-- calculateRiskScore on three present numeric sub-scores is the exact
weighted sum of the clamped values. -/
theorem calculateRiskScore_num (a b c : ℚ) (fa fb fc : Option (List JSStr)) :
    calculateRiskScore ⟨some (.num a), fa⟩ ⟨some (.num b), fb⟩ ⟨some (.num c), fc⟩ =
      .num (normQ a * (1/2) + normQ b * (3/10) + normQ c * (1/5)) := by
  show JSNum.add (JSNum.add (JSNum.mul (normalizeScore (jsOrZero (some (.num a)))) _)
      (JSNum.mul (normalizeScore (jsOrZero (some (.num b)))) _))
    (JSNum.mul (normalizeScore (jsOrZero (some (.num c)))) _) = _
  rw [normalizeScore_jsOrZero_num, normalizeScore_jsOrZero_num,
    normalizeScore_jsOrZero_num]
  rfl

/-- normQ stays within the unit band [0, 100]. -/
theorem normQ_mem (s : ℚ) : 0 ≤ normQ s ∧ normQ s ≤ 100 := by
  constructor
  · exact le_min (by norm_num) (le_max_left 0 s)
  · exact min_le_left 100 _

/-- specAggregate stays within [0, 100]. -/
theorem specAggregate_mem (a b c : ℚ) :
    0 ≤ specAggregate a b c ∧ specAggregate a b c ≤ 100 := by
  obtain ⟨ha0, ha1⟩ := normQ_mem a
  obtain ⟨hb0, hb1⟩ := normQ_mem b
  obtain ⟨hc0, hc1⟩ := normQ_mem c
  unfold specAggregate specRound
  constructor
  · rw [Int.le_floor]
    push_cast
    nlinarith
  · have h : (normQ a * (1/2) + normQ b * (3/10) + normQ c * (1/5)) + 1/2
        < ((101 : ℤ) : ℚ) := by push_cast; nlinarith
    have h2 := Int.floor_lt.mpr h
    omega

/-- C1: for every triple of numeric SubAnalysis inputs, the aggregated
report score equals `round(normalize(onChain)*0.5 + normalize(social)*0.3 +
normalize(code)*0.2)` with round-half-up rounding (the score stored in the
report is `Math.round` applied to `calculateRiskScore`); in particular
onChain = 100, social = 50, code = 25 yields 70. -/
theorem C1_aggregate_is_rounded_weighted_sum :
    (∀ (ti : TokenInfo) (tm ts : JSStr) (a b c : ℚ) (fa fb fc : Option (List JSStr)),
      (buildReport ti tm ts ⟨some (.num a), fa⟩ ⟨some (.num b), fb⟩
          ⟨some (.num c), fc⟩).riskScore = .num (specAggregate a b c)) ∧
    (buildReport ⟨some "T".toList⟩ "m".toList "ts".toList
        ⟨some (.num 100), none⟩ ⟨some (.num 50), none⟩
        ⟨some (.num 25), none⟩).riskScore = .num 70 := by
  constructor
  · intro ti tm ts a b c fa fb fc
    show jsRound (calculateRiskScore _ _ _) = _
    rw [calculateRiskScore_num]
    rfl
  · decide

/-- C2: for every triple of numeric sub-scores, out-of-range values included,
the rounded composite score stored in the report is an integer in [0, 100],
because each sub-score is clamped before the weighted sum. -/
theorem C2_composite_score_in_range
    (ti : TokenInfo) (tm ts : JSStr) (a b c : ℚ) (fa fb fc : Option (List JSStr)) :
    ∃ z : ℤ, (buildReport ti tm ts ⟨some (.num a), fa⟩ ⟨some (.num b), fb⟩
        ⟨some (.num c), fc⟩).riskScore = .num z ∧ 0 ≤ z ∧ z ≤ 100 := by
  refine ⟨specAggregate a b c, ?_, specAggregate_mem a b c⟩
  show jsRound (calculateRiskScore _ _ _) = _
  rw [calculateRiskScore_num]
  rfl

/-- C5 counterexample: at sub-scores 100 / 98 / 1 the unrounded composite is
79.6, so the report stores `riskScore = 80` but `riskLevel = HIGH`, while the
classifier applied to the stored score 80 yields CRITICAL; hence
`report.riskLevel = getRiskLevel report.riskScore` fails. -/
theorem C5_counterexample_level_not_function_of_stored_score :
    (buildReport ⟨some "T".toList⟩ "m".toList "ts".toList
        ⟨some (.num 100), some []⟩ ⟨some (.num 98), some []⟩
        ⟨some (.num 1), some []⟩).riskScore = .num 80 ∧
    (buildReport ⟨some "T".toList⟩ "m".toList "ts".toList
        ⟨some (.num 100), some []⟩ ⟨some (.num 98), some []⟩
        ⟨some (.num 1), some []⟩).riskLevel = "HIGH".toList ∧
    getRiskLevel (.num 80) = "CRITICAL".toList ∧
    ¬ ((buildReport ⟨some "T".toList⟩ "m".toList "ts".toList
        ⟨some (.num 100), some []⟩ ⟨some (.num 98), some []⟩
        ⟨some (.num 1), some []⟩).riskLevel =
      getRiskLevel (buildReport ⟨some "T".toList⟩ "m".toList "ts".toList
        ⟨some (.num 100), some []⟩ ⟨some (.num 98), some []⟩
        ⟨some (.num 1), some []⟩).riskScore) := by
  refine ⟨by decide, by decide, by decide, by decide⟩

/-- C5 amended: in every report the `riskLevel` field is the classifier
applied to the unrounded composite score `calculateRiskScore(...)`, not to
the rounded `riskScore` field stored next to it; the two disagree exactly
when rounding crosses a tier boundary. -/
theorem C5_amended_level_from_unrounded_score
    (ti : TokenInfo) (tm ts : JSStr) (oc so co : SubAnalysis) :
    (buildReport ti tm ts oc so co).riskLevel =
      getRiskLevel (calculateRiskScore oc so co) := rfl

/-- C6: normalizeScore on every (rational-valued) number computes the total
clamp `min(100, max(0, s))`: the result is in [0, 100], is the identity on
[0, 100], and sends -5 to 0 and 150 to 100. -/
theorem C6_normalize_is_total_clamp (s : ℚ) :
    normalizeScore (.num s) = .num (min 100 (max 0 s)) ∧
    (0 ≤ min 100 (max 0 s) ∧ min 100 (max 0 s) ≤ 100) ∧
    (0 ≤ s → s ≤ 100 → normalizeScore (.num s) = .num s) ∧
    normalizeScore (.num (-5)) = .num 0 ∧
    normalizeScore (.num 150) = .num 100 := by
  refine ⟨rfl, normQ_mem s, ?_, by decide, by decide⟩
  intro h0 h100
  show JSNum.num (min 100 (max 0 s)) = _
  rw [max_eq_right h0, min_eq_right h100]

/-- C6 witness: the clamp is the identity at 7. -/
theorem C6_witness : normalizeScore (.num 7) = .num 7 :=
  (C6_normalize_is_total_clamp 7).2.2.1 (by norm_num) (by norm_num)

/-- C7 counterexample: a NaN on-chain `riskScore` does not flow through the
arithmetic as NaN; the `|| 0` guard replaces it by the default 0, so the
aggregation returns the number 0, not NaN. -/
theorem C7_counterexample_nan_is_defaulted :
    calculateRiskScore ⟨some .nan, none⟩ ⟨some (.num 0), none⟩
        ⟨some (.num 0), none⟩ = .num 0 ∧
    ¬ (calculateRiskScore ⟨some .nan, none⟩ ⟨some (.num 0), none⟩
        ⟨some (.num 0), none⟩ = .nan) := by
  refine ⟨by decide, by decide⟩

/-- jsOrZero always yields a plain number. -/
theorem jsOrZero_is_num (x : Option JSNum) : ∃ q : ℚ, jsOrZero x = .num q := by
  rcases x with _ | x
  · exact ⟨0, rfl⟩
  · rcases x with q | _
    · by_cases hq : q = 0
      · exact ⟨0, by simp [jsOrZero, hq]⟩
      · exact ⟨q, by simp [jsOrZero, hq]⟩
    · exact ⟨0, rfl⟩

/-- C7 amended: malformed sub-scores are not rejected, but neither do they
propagate as NaN: the `|| 0` guard replaces a NaN or missing `riskScore` by
the default 0 before normalization, and the aggregation always returns a
plain number. -/
theorem C7_amended_nan_and_missing_default_to_zero :
    (∀ (fa : Option (List JSStr)) (so co : SubAnalysis),
      calculateRiskScore ⟨some .nan, fa⟩ so co =
        calculateRiskScore ⟨some (.num 0), fa⟩ so co) ∧
    (∀ (fa : Option (List JSStr)) (so co : SubAnalysis),
      calculateRiskScore ⟨none, fa⟩ so co =
        calculateRiskScore ⟨some (.num 0), fa⟩ so co) ∧
    (∀ oc so co : SubAnalysis, ∃ q : ℚ, calculateRiskScore oc so co = .num q) := by
  refine ⟨fun fa so co => rfl, fun fa so co => rfl, fun oc so co => ?_⟩
  obtain ⟨qa, ha⟩ := jsOrZero_is_num oc.riskScore
  obtain ⟨qb, hb⟩ := jsOrZero_is_num so.riskScore
  obtain ⟨qc, hc⟩ := jsOrZero_is_num co.riskScore
  refine ⟨normQ qa * (1/2) + normQ qb * (3/10) + normQ qc * (1/5), ?_⟩
  show JSNum.add (JSNum.add (JSNum.mul (normalizeScore (jsOrZero oc.riskScore)) _)
      (JSNum.mul (normalizeScore (jsOrZero so.riskScore)) _))
    (JSNum.mul (normalizeScore (jsOrZero co.riskScore)) _) = _
  rw [ha, hb, hc]
  rfl

/-- C3: the classifier has inclusive lower bounds on the five ordered tiers:
all nine boundary evaluations of the claim hold, and in general a score of at
least 80 is CRITICAL, [60, 80) is HIGH, [40, 60) is MEDIUM, [20, 40) is LOW,
and below 20 is SAFE. -/
theorem C3_classifier_tier_boundaries :
    getRiskLevel (.num 80) = "CRITICAL".toList ∧
    getRiskLevel (.num 79) = "HIGH".toList ∧
    getRiskLevel (.num 60) = "HIGH".toList ∧
    getRiskLevel (.num 59) = "MEDIUM".toList ∧
    getRiskLevel (.num 40) = "MEDIUM".toList ∧
    getRiskLevel (.num 39) = "LOW".toList ∧
    getRiskLevel (.num 20) = "LOW".toList ∧
    getRiskLevel (.num 19) = "SAFE".toList ∧
    getRiskLevel (.num 0) = "SAFE".toList ∧
    (∀ s : ℚ,
      (80 ≤ s → getRiskLevel (.num s) = "CRITICAL".toList) ∧
      (60 ≤ s → s < 80 → getRiskLevel (.num s) = "HIGH".toList) ∧
      (40 ≤ s → s < 60 → getRiskLevel (.num s) = "MEDIUM".toList) ∧
      (20 ≤ s → s < 40 → getRiskLevel (.num s) = "LOW".toList) ∧
      (s < 20 → getRiskLevel (.num s) = "SAFE".toList)) := by
  refine ⟨by decide, by decide, by decide, by decide, by decide, by decide,
    by decide, by decide, by decide, fun s => ⟨?_, ?_, ?_, ?_, ?_⟩⟩
  · intro h
    simp [getRiskLevel, JSNum.geB, h]
  · intro h1 h2
    simp [getRiskLevel, JSNum.geB, h1, not_le.mpr h2]
  · intro h1 h2
    have h3 : ¬ (80 : ℚ) ≤ s := not_le.mpr (lt_trans h2 (by norm_num))
    simp [getRiskLevel, JSNum.geB, h1, not_le.mpr h2, h3]
  · intro h1 h2
    have h3 : ¬ (80 : ℚ) ≤ s := not_le.mpr (lt_trans h2 (by norm_num))
    have h4 : ¬ (60 : ℚ) ≤ s := not_le.mpr (lt_trans h2 (by norm_num))
    simp [getRiskLevel, JSNum.geB, h1, not_le.mpr h2, h3, h4]
  · intro h
    have h3 : ¬ (80 : ℚ) ≤ s := not_le.mpr (lt_trans h (by norm_num))
    have h4 : ¬ (60 : ℚ) ≤ s := not_le.mpr (lt_trans h (by norm_num))
    have h5 : ¬ (40 : ℚ) ≤ s := not_le.mpr (lt_trans h (by norm_num))
    simp [getRiskLevel, JSNum.geB, not_le.mpr h, h3, h4, h5]

/-- C3 witness: the general band implications hold at 100, 70, 50, 30 and 5. -/
theorem C3_witness :
    getRiskLevel (.num 100) = "CRITICAL".toList ∧
    getRiskLevel (.num 70) = "HIGH".toList ∧
    getRiskLevel (.num 50) = "MEDIUM".toList ∧
    getRiskLevel (.num 30) = "LOW".toList ∧
    getRiskLevel (.num 5) = "SAFE".toList :=
  ⟨(C3_classifier_tier_boundaries.2.2.2.2.2.2.2.2.2 100).1 (by norm_num),
    ((C3_classifier_tier_boundaries.2.2.2.2.2.2.2.2.2 70).2.1 (by norm_num)
      (by norm_num)),
    ((C3_classifier_tier_boundaries.2.2.2.2.2.2.2.2.2 50).2.2.1 (by norm_num)
      (by norm_num)),
    ((C3_classifier_tier_boundaries.2.2.2.2.2.2.2.2.2 30).2.2.2.1 (by norm_num)
      (by norm_num)),
    ((C3_classifier_tier_boundaries.2.2.2.2.2.2.2.2.2 5).2.2.2.2 (by norm_num))⟩

/-- C4: the orchestrator fails with the not-found error whenever the chain
collaborator resolves no token metadata — for every behaviour of the three
sub-analyzers, so none of them can influence (and none is needed for) that
outcome; a failing sub-analyzer's error is propagated unswallowed (first
rejection in the `Promise.all` join wins); and a successful result is always
the full report built from the three successful sub-analyses — no partial
report exists. -/
theorem C4_orchestrator_error_contract
    (tm now : JSStr) (gti : JSStr → Option TokenInfo)
    (a1 a2 a3 : JSStr → Except JSStr SubAnalysis) :
    (gti tm = none → analyzeToken tm now gti a1 a2 a3 = .error notFoundMsg) ∧
    (∀ (ti : TokenInfo) (e : JSStr), gti tm = some ti → a1 tm = .error e →
      analyzeToken tm now gti a1 a2 a3 = .error e) ∧
    (∀ (ti : TokenInfo) (x : SubAnalysis) (e : JSStr), gti tm = some ti →
      a1 tm = .ok x → a2 tm = .error e →
      analyzeToken tm now gti a1 a2 a3 = .error e) ∧
    (∀ (ti : TokenInfo) (x y : SubAnalysis) (e : JSStr), gti tm = some ti →
      a1 tm = .ok x → a2 tm = .ok y → a3 tm = .error e →
      analyzeToken tm now gti a1 a2 a3 = .error e) ∧
    (∀ r : AnalysisReport, analyzeToken tm now gti a1 a2 a3 = .ok r →
      ∃ (ti : TokenInfo) (a b c : SubAnalysis), gti tm = some ti ∧
        a1 tm = .ok a ∧ a2 tm = .ok b ∧ a3 tm = .ok c ∧
        r = buildReport ti tm now a b c) := by
  refine ⟨?_, ?_, ?_, ?_, ?_⟩
  · intro h
    simp [analyzeToken, h]
  · intro ti e hti he
    simp [analyzeToken, hti, he]
  · intro ti x e hti hx he
    simp [analyzeToken, hti, hx, he]
  · intro ti x y e hti hx hy he
    simp [analyzeToken, hti, hx, hy, he]
  · intro r h
    rcases hti : gti tm with _ | ti
    · simp [analyzeToken, hti] at h
    · rcases h1 : a1 tm with e | a
      · simp [analyzeToken, hti, h1] at h
      · rcases h2 : a2 tm with e | b
        · simp [analyzeToken, hti, h1, h2] at h
        · rcases h3 : a3 tm with e | c
          · simp [analyzeToken, hti, h1, h2, h3] at h
          · simp [analyzeToken, hti, h1, h2, h3] at h
            exact ⟨ti, a, b, c, rfl, rfl, rfl, rfl, h.symm⟩

/-- C4 witness: with a metadata lookup resolving null and all-successful
sub-analyzers, the call fails with the not-found error. -/
theorem C4_witness :
    analyzeToken "t".toList "now".toList (fun _ => none)
      (fun _ => .ok ⟨some (.num 1), some []⟩)
      (fun _ => .ok ⟨some (.num 2), some []⟩)
      (fun _ => .ok ⟨some (.num 3), some []⟩) = .error notFoundMsg :=
  (C4_orchestrator_error_contract "t".toList "now".toList (fun _ => none)
    (fun _ => .ok ⟨some (.num 1), some []⟩)
    (fun _ => .ok ⟨some (.num 2), some []⟩)
    (fun _ => .ok ⟨some (.num 3), some []⟩)).1 rfl

/-- joinMap concatenates the images of a list-valued function over a list. -/
def joinMap {α β : Type} (g : α → List β) : List α → List β
  | [] => []
  | x :: t => g x ++ joinMap g t

/-- flagRecs restates, from the specification, the warnings one on-chain red
flag contributes: mint-authority, liquidity/LP and
concentration/distribution substring checks, in that order. -/
def flagRecs (flag : JSStr) : List JSStr :=
  (if containsSub "mint authority".toList flag then
    ["Mint authority not renounced - unlimited token creation possible".toList]
  else [])
  ++ (if containsSub "liquidity".toList flag || containsSub "LP".toList flag then
    ["Liquidity not locked - developers can remove funds anytime".toList]
  else [])
  ++ (if containsSub "concentration".toList flag ||
        containsSub "distribution".toList flag then
    ["High token concentration - single wallet controls majority supply".toList]
  else [])

/-- specTierRecs restates, from the specification, the two fixed headline
strings contributed by exactly one of the four threshold bands. -/
def specTierRecs (score : JSNum) : List JSStr :=
  if score.geB 80 then
    ["DO NOT BUY - HIGH RUG PULL RISK".toList, "Avoid this token completely".toList]
  else if score.geB 60 then
    ["EXTREME CAUTION - High risk detected".toList,
      "Only invest what you can afford to lose".toList]
  else if score.geB 40 then
    ["MODERATE CAUTION - Some red flags present".toList,
      "Research thoroughly before investing".toList]
  else
    ["APPEARS LEGITIMATE - Low risk detected".toList,
      "Still exercise normal caution with new tokens".toList]

/-- specRecommendations restates, from the specification, the full shape of
the recommendation list: tier headlines, then per-on-chain-flag warnings in
flag order without deduplication, then one social and one code warning. -/
def specRecommendations (score : JSNum) (onChain social code : SubAnalysis) :
    List JSStr :=
  specTierRecs score ++ joinMap flagRecs (orNil onChain.redFlags)
  ++ (if orNil social.redFlags = [] then []
      else ["Social media shows suspicious activity".toList])
  ++ (if orNil code.redFlags = [] then []
      else ["Contract contains potential vulnerabilities".toList])

/-- onChainFlagStep appends exactly the flag's specified warnings. -/
theorem onChainFlagStep_eq (acc : List JSStr) (flag : JSStr) :
    onChainFlagStep acc flag = acc ++ flagRecs flag := by
  simp [onChainFlagStep, flagRecs, List.append_assoc]

/-- the forEach fold over red flags appends the joined per-flag warnings. -/
theorem foldl_onChainFlagStep (l : List JSStr) :
    ∀ init : List JSStr, l.foldl onChainFlagStep init = init ++ joinMap flagRecs l := by
  induction l with
  | nil => intro init; simp [joinMap]
  | cons x t ih =>
    intro init
    simp only [List.foldl_cons, joinMap, onChainFlagStep_eq, ih, List.append_assoc]

/-- generateRecommendations matches its specified shape on every input. -/
theorem generateRecommendations_eq_spec (rs : JSNum) (oc so co : SubAnalysis) :
    generateRecommendations rs oc so co = specRecommendations rs oc so co := by
  obtain ⟨s1, f1⟩ := oc
  obtain ⟨s2, f2⟩ := so
  obtain ⟨s3, f3⟩ := co
  rcases f1 with _ | (_ | ⟨g1, l1⟩) <;> rcases f2 with _ | (_ | ⟨g2, l2⟩) <;>
    rcases f3 with _ | (_ | ⟨g3, l3⟩) <;>
    simp [generateRecommendations, specRecommendations, specTierRecs, orNil,
      joinMap, foldl_onChainFlagStep, onChainFlagStep_eq, List.append_assoc]

/-- C8: the recommendation list is, in order, the two fixed headlines of the
four-band tier selection, then one warning per matching on-chain red flag
(substring checks for mint authority, liquidity/LP and
concentration/distribution, no deduplication, flag order preserved), then one
fixed social warning if social red flags exist and one fixed code warning if
code red flags exist; and at score 85 the literal headline
`DO NOT BUY - HIGH RUG PULL RISK` is included. -/
theorem C8_recommendations_shape :
    (∀ (rs : JSNum) (oc so co : SubAnalysis),
      generateRecommendations rs oc so co = specRecommendations rs oc so co) ∧
    (∀ oc so co : SubAnalysis,
      "DO NOT BUY - HIGH RUG PULL RISK".toList ∈
        generateRecommendations (.num 85) oc so co) := by
  refine ⟨generateRecommendations_eq_spec, fun oc so co => ?_⟩
  rw [generateRecommendations_eq_spec]
  have h : JSNum.geB (.num 85) 80 = true := by decide
  simp [specRecommendations, specTierRecs, h]

/-- specTierRecs always selects exactly one of the four headline pairs. -/
theorem specTierRecs_cases (rs : JSNum) :
    specTierRecs rs =
      ["DO NOT BUY - HIGH RUG PULL RISK".toList,
        "Avoid this token completely".toList] ∨
    specTierRecs rs =
      ["EXTREME CAUTION - High risk detected".toList,
        "Only invest what you can afford to lose".toList] ∨
    specTierRecs rs =
      ["MODERATE CAUTION - Some red flags present".toList,
        "Research thoroughly before investing".toList] ∨
    specTierRecs rs =
      ["APPEARS LEGITIMATE - Low risk detected".toList,
        "Still exercise normal caution with new tokens".toList] := by
  unfold specTierRecs
  split_ifs <;> simp

/-- C10: for every risk score (NaN included) and every triple of
sub-analyses, the recommendation list has at least two elements; its first
two elements are the headline pair of exactly one tier band; and the band is
selected by the threshold comparisons, with the trailing else branch catching
every score that fails all three. -/
theorem C10_recommendations_never_empty (rs : JSNum) (oc so co : SubAnalysis) :
    2 ≤ (generateRecommendations rs oc so co).length ∧
    (generateRecommendations rs oc so co).take 2 = specTierRecs rs ∧
    (specTierRecs rs =
        ["DO NOT BUY - HIGH RUG PULL RISK".toList,
          "Avoid this token completely".toList] ∨
      specTierRecs rs =
        ["EXTREME CAUTION - High risk detected".toList,
          "Only invest what you can afford to lose".toList] ∨
      specTierRecs rs =
        ["MODERATE CAUTION - Some red flags present".toList,
          "Research thoroughly before investing".toList] ∨
      specTierRecs rs =
        ["APPEARS LEGITIMATE - Low risk detected".toList,
          "Still exercise normal caution with new tokens".toList]) ∧
    (rs.geB 80 = true →
      specTierRecs rs =
        ["DO NOT BUY - HIGH RUG PULL RISK".toList,
          "Avoid this token completely".toList]) ∧
    (rs.geB 80 = false → rs.geB 60 = true →
      specTierRecs rs =
        ["EXTREME CAUTION - High risk detected".toList,
          "Only invest what you can afford to lose".toList]) ∧
    (rs.geB 80 = false → rs.geB 60 = false → rs.geB 40 = true →
      specTierRecs rs =
        ["MODERATE CAUTION - Some red flags present".toList,
          "Research thoroughly before investing".toList]) ∧
    (rs.geB 80 = false → rs.geB 60 = false → rs.geB 40 = false →
      specTierRecs rs =
        ["APPEARS LEGITIMATE - Low risk detected".toList,
          "Still exercise normal caution with new tokens".toList]) := by
  refine ⟨?_, ?_, specTierRecs_cases rs, ?_, ?_, ?_, ?_⟩
  · rw [generateRecommendations_eq_spec]
    unfold specRecommendations
    rcases specTierRecs_cases rs with h | h | h | h <;> rw [h] <;> simp
  · rw [generateRecommendations_eq_spec]
    unfold specRecommendations
    rcases specTierRecs_cases rs with h | h | h | h <;> rw [h] <;> simp
  · intro h
    simp [specTierRecs, h]
  · intro h1 h2
    simp [specTierRecs, h1, h2]
  · intro h1 h2 h3
    simp [specTierRecs, h1, h2, h3]
  · intro h1 h2 h3
    simp [specTierRecs, h1, h2, h3]

/-- C10 witness: at score 100 the headline pair is the critical-band pair,
and the full list starts with it. -/
theorem C10_witness :
    (generateRecommendations (.num 100) ⟨none, none⟩ ⟨none, none⟩
        ⟨none, none⟩).take 2 = specTierRecs (.num 100) ∧
    specTierRecs (.num 100) =
      ["DO NOT BUY - HIGH RUG PULL RISK".toList,
        "Avoid this token completely".toList] :=
  ⟨(C10_recommendations_never_empty (.num 100) ⟨none, none⟩ ⟨none, none⟩
      ⟨none, none⟩).2.1,
    (C10_recommendations_never_empty (.num 100) ⟨none, none⟩ ⟨none, none⟩
      ⟨none, none⟩).2.2.2.1 (by decide)⟩

/-- a left fold that only appends is the concatenation of the images. -/
theorem foldl_append_join {α β : Type} (g : α → List β) (l : List α) :
    ∀ init : List β,
      l.foldl (fun acc x => acc ++ g x) init = init ++ joinMap g l := by
  induction l with
  | nil => intro init; simp [joinMap]
  | cons x t ih =>
    intro init
    simp only [List.foldl_cons, joinMap, ih, List.append_assoc]

/-- summaryHeadline restates, from the specification, the headline line of
the summary: tier name and rounded score interpolated into a fixed template. -/
def summaryHeadline (rs : JSNum) : JSStr :=
  "🚨 RUG PULL ALERT: This token has ".toList ++ getRiskLevel rs
    ++ " RUG PULL RISK (".toList ++ jsRoundStr rs ++ "/100)\n\n".toList

/-- summaryFlagSection restates, from the specification, the key-red-flags
section: empty when there are no flags, otherwise the section header, the
first five flags verbatim, an overflow line when more than five exist, and a
blank separator line. -/
def summaryFlagSection (flags : List JSStr) : JSStr :=
  if flags = [] then []
  else
    "🔴 KEY RED FLAGS:\n".toList
    ++ joinMap (fun f => "- ".toList ++ f ++ "\n".toList) (flags.take 5)
    ++ (if flags.length > 5 then
          "- ...and ".toList ++ natToStr (flags.length - 5) ++ " more issues\n".toList
        else [])
    ++ "\n".toList

/-- specRecLabel restates, from the specification, the short final
recommendation label chosen by the four-band thresholds. -/
def specRecLabel (rs : JSNum) : JSStr :=
  if rs.geB 80 then "DO NOT BUY".toList
  else if rs.geB 60 then "EXTREME CAUTION".toList
  else if rs.geB 40 then "MODERATE CAUTION".toList
  else "APPEARS SAFE".toList

/-- summaryRecLine restates, from the specification, the final one-line
recommendation of the summary. -/
def summaryRecLine (rs : JSNum) : JSStr :=
  "💡 RECOMMENDATION: ".toList ++ specRecLabel rs

/-- generateSummary matches its specified shape on every input. -/
theorem generateSummary_eq_spec (rs : JSNum) (oc so co : SubAnalysis) :
    generateSummary rs oc so co =
      summaryHeadline rs
      ++ summaryFlagSection
          (orNil oc.redFlags ++ orNil so.redFlags ++ orNil co.redFlags)
      ++ summaryRecLine rs := by
  simp only [generateSummary, summaryHeadline, summaryFlagSection,
    summaryRecLine, specRecLabel]
  by_cases hf : orNil oc.redFlags ++ orNil so.redFlags ++ orNil co.redFlags = []
  · rw [hf]
    split_ifs <;> simp_all [List.append_assoc]
  · have hlen : 0 < (orNil oc.redFlags ++ orNil so.redFlags
        ++ orNil co.redFlags).length := List.length_pos.mpr hf
    rw [if_pos hlen, if_neg hf, foldl_append_join]
    split_ifs <;> simp [List.append_assoc]

/-- a list is a Boolean prefix of itself followed by anything. -/
theorem isPrefixB_append_self (n : List Char) :
    ∀ post : List Char, isPrefixB n (n ++ post) = true := by
  induction n with
  | nil => intro post; rfl
  | cons a t ih => intro post; simp [isPrefixB, ih]

/-- containsSub finds an explicitly split-off needle. -/
theorem containsSub_true_of_split (n : List Char) :
    ∀ pre post h : List Char, h = pre ++ n ++ post → containsSub n h = true := by
  intro pre
  induction pre with
  | nil =>
    intro post h hh
    subst hh
    cases n with
    | nil => cases post <;> simp [containsSub, isPrefixB]
    | cons a t =>
      simp only [containsSub, List.cons_append, Bool.or_eq_true]
      exact Or.inl (by simp [isPrefixB, isPrefixB_append_self])
  | cons c pre2 ih =>
    intro post h hh
    subst hh
    simp only [List.cons_append, containsSub, Bool.or_eq_true]
    exact Or.inr (ih post _ rfl)

/-- a Boolean prefix yields an explicit decomposition. -/
theorem append_of_isPrefixB (n : List Char) :
    ∀ h : List Char, isPrefixB n h = true → ∃ post, h = n ++ post := by
  induction n with
  | nil => intro h _; exact ⟨h, rfl⟩
  | cons a t ih =>
    intro h hp
    cases h with
    | nil => simp [isPrefixB] at hp
    | cons b h2 =>
      simp only [isPrefixB, Bool.and_eq_true, beq_iff_eq] at hp
      obtain ⟨post, rfl⟩ := ih h2 hp.2
      exact ⟨post, by simp [hp.1]⟩

/-- a successful containsSub yields an explicit split of the haystack. -/
theorem split_of_containsSub (n : List Char) :
    ∀ h : List Char, containsSub n h = true → ∃ pre post, h = pre ++ n ++ post := by
  intro h
  induction h with
  | nil =>
    intro hc
    simp only [containsSub, List.isEmpty_eq_true] at hc
    exact ⟨[], [], by simp [hc]⟩
  | cons c t ih =>
    intro hc
    simp only [containsSub, Bool.or_eq_true] at hc
    rcases hc with hp | hc
    · obtain ⟨post, hpost⟩ := append_of_isPrefixB n _ hp
      exact ⟨[], post, by simp [hpost]⟩
    · obtain ⟨pre, post, rfl⟩ := ih hc
      exact ⟨c :: pre, post, rfl⟩

/-- hasKE scans for the two-character pattern `KE`. -/
def hasKE : List Char → Bool
  | a :: b :: t => (a == 'K' && b == 'E') || hasKE (b :: t)
  | _ => false

/-- hasKE fires on any list containing an adjacent `K`, `E` pair. -/
theorem hasKE_split (pre rest : List Char) :
    hasKE (pre ++ 'K' :: 'E' :: rest) = true := by
  induction pre with
  | nil => simp [hasKE]
  | cons a pre2 ih =>
    cases pre2 with
    | nil => simp_all [hasKE]
    | cons b pre3 => simp_all [hasKE]

/-- a haystack containing `KEY RED FLAGS` has an adjacent `K`, `E` pair. -/
theorem hasKE_of_key (h : List Char)
    (hc : containsSub "KEY RED FLAGS".toList h = true) : hasKE h = true := by
  obtain ⟨pre, post, rfl⟩ := split_of_containsSub _ _ hc
  have hk : "KEY RED FLAGS".toList = 'K' :: 'E' :: "Y RED FLAGS".toList := by decide
  rw [hk, List.append_assoc, List.cons_append, List.cons_append]
  exact hasKE_split pre _

/-- hasKE stays false across an append when both halves are `KE`-free and the
left half does not end in `K`. -/
theorem hasKE_append_false (ys : List Char) (hy : hasKE ys = false) :
    ∀ xs : List Char, hasKE xs = false →
      (∀ c, xs.getLast? = some c → c ≠ 'K') → hasKE (xs ++ ys) = false := by
  intro xs
  induction xs with
  | nil => intro _ _; simpa
  | cons a xs2 ih =>
    intro hx hlast
    cases xs2 with
    | nil =>
      cases ys with
      | nil => rfl
      | cons b t =>
        have ha : a ≠ 'K' := hlast a (by simp)
        have hab : (a == 'K') = false := beq_eq_false_iff_ne.mpr ha
        simpa [hasKE, hab] using hy
    | cons b xs3 =>
      have hx2 : (a == 'K' && b == 'E') = false ∧ hasKE (b :: xs3) = false := by
        constructor
        · cases hab : (a == 'K' && b == 'E') with
          | false => rfl
          | true => simp [hasKE, hab] at hx
        · cases hke : hasKE (b :: xs3) with
          | false => rfl
          | true => simp [hasKE, hke] at hx
      have hlast2 : ∀ c, (b :: xs3).getLast? = some c → c ≠ 'K' := by
        intro c hc
        exact hlast c (by rw [List.getLast?_cons_cons]; exact hc)
      have h3 := ih hx2.2 hlast2
      simp only [List.cons_append] at h3 ⊢
      simp [hasKE, hx2.1, h3]

/-- a `K`-free list is `KE`-free. -/
theorem hasKE_false_of_no_K (l : List Char) (h : 'K' ∉ l) : hasKE l = false := by
  induction l with
  | nil => rfl
  | cons a t ih =>
    cases t with
    | nil => rfl
    | cons b t2 =>
      have ha : (a == 'K') = false :=
        beq_eq_false_iff_ne.mpr (fun e => h (by simp [e]))
      have ht : 'K' ∉ b :: t2 := fun m => h (List.mem_cons_of_mem a m)
      simp [hasKE, ha, ih ht]

/-- the last element of a list is an element of it. -/
theorem getLastQ_mem (l : List Char) (c : Char) (h : l.getLast? = some c) :
    c ∈ l := by
  induction l with
  | nil => simp at h
  | cons a t ih =>
    cases t with
    | nil => simp_all
    | cons b t2 =>
      rw [List.getLast?_cons_cons] at h
      exact List.mem_cons_of_mem a (ih h)

/-- a `K`-free list never ends in `K`. -/
theorem lastNeK_of_no_K (l : List Char) (h : 'K' ∉ l) :
    ∀ c, l.getLast? = some c → c ≠ 'K' := by
  intro c hc e
  subst e
  exact h (getLastQ_mem l _ hc)

/-- every digit character is distinct from `K`. -/
theorem digitC_ne_K (d : ℕ) (hd : d < 10) : digitC d ≠ 'K' := by
  interval_cases d <;> decide

/-- digit strings contain no `K`. -/
theorem natDigitsRevF_no_K (fuel : ℕ) : ∀ n : ℕ, 'K' ∉ natDigitsRevF fuel n := by
  induction fuel with
  | zero => intro n; cases n <;> simp [natDigitsRevF]
  | succ f ih =>
    intro n
    cases n with
    | zero => simp [natDigitsRevF]
    | succ m =>
      simp only [natDigitsRevF, List.mem_cons, not_or]
      exact ⟨fun e => digitC_ne_K _ (Nat.mod_lt _ (by norm_num)) e.symm, ih _⟩

/-- rendered naturals contain no `K`. -/
theorem natToStr_no_K (n : ℕ) : 'K' ∉ natToStr n := by
  unfold natToStr
  split_ifs
  · decide
  · simpa [List.mem_reverse] using natDigitsRevF_no_K n n

/-- rendered integers contain no `K`. -/
theorem intToStr_no_K (i : ℤ) : 'K' ∉ intToStr i := by
  unfold intToStr
  split_ifs
  · simp only [List.mem_cons, not_or]
    exact ⟨by decide, natToStr_no_K _⟩
  · exact natToStr_no_K _

/-- the rendered rounded score contains no `K`. -/
theorem jsRoundStr_no_K (x : JSNum) : 'K' ∉ jsRoundStr x := by
  cases x with
  | num q => exact intToStr_no_K _
  | nan => decide

/-- getRiskLevel always yields one of the five tier names. -/
theorem getRiskLevel_cases (rs : JSNum) :
    getRiskLevel rs = "CRITICAL".toList ∨ getRiskLevel rs = "HIGH".toList ∨
    getRiskLevel rs = "MEDIUM".toList ∨ getRiskLevel rs = "LOW".toList ∨
    getRiskLevel rs = "SAFE".toList := by
  unfold getRiskLevel
  split_ifs <;> simp

/-- specRecLabel always yields one of the four short labels. -/
theorem specRecLabel_cases (rs : JSNum) :
    specRecLabel rs = "DO NOT BUY".toList ∨
    specRecLabel rs = "EXTREME CAUTION".toList ∨
    specRecLabel rs = "MODERATE CAUTION".toList ∨
    specRecLabel rs = "APPEARS SAFE".toList := by
  unfold specRecLabel
  split_ifs <;> simp

/-- a list with a known last element distinct from `K` never ends in `K`. -/
theorem lastNeK_concrete (l : List Char) (d : Char) (hl : l.getLast? = some d)
    (hd : (d == 'K') = false) : ∀ c, l.getLast? = some c → c ≠ 'K' := by
  intro c hc e
  subst e
  rw [hl] at hc
  injection hc with h2
  exact beq_eq_false_iff_ne.mp hd h2

/-- tier names contain no adjacent `KE`. -/
theorem hasKE_getRiskLevel (rs : JSNum) : hasKE (getRiskLevel rs) = false := by
  rcases getRiskLevel_cases rs with h | h | h | h | h <;> rw [h] <;> decide

/-- tier names never end in `K`. -/
theorem getRiskLevel_lastNeK (rs : JSNum) :
    ∀ c, (getRiskLevel rs).getLast? = some c → c ≠ 'K' := by
  rcases getRiskLevel_cases rs with h | h | h | h | h <;> rw [h]
  · exact lastNeK_concrete _ 'L' (by decide) (by decide)
  · exact lastNeK_concrete _ 'H' (by decide) (by decide)
  · exact lastNeK_concrete _ 'M' (by decide) (by decide)
  · exact lastNeK_concrete _ 'W' (by decide) (by decide)
  · exact lastNeK_concrete _ 'E' (by decide) (by decide)

/-- the flagless summary text contains no adjacent `KE` pair. -/
theorem hasKE_summary_empty (rs : JSNum) :
    hasKE ("🚨 RUG PULL ALERT: This token has ".toList ++ (getRiskLevel rs
      ++ (" RUG PULL RISK (".toList ++ (jsRoundStr rs ++ ("/100)\n\n".toList
      ++ ("💡 RECOMMENDATION: ".toList ++ specRecLabel rs)))))) = false := by
  have hlabel : hasKE (specRecLabel rs) = false := by
    rcases specRecLabel_cases rs with h | h | h | h <;> rw [h] <;> decide
  have h5 : hasKE ("💡 RECOMMENDATION: ".toList ++ specRecLabel rs) = false :=
    hasKE_append_false _ hlabel _ (by decide)
      (lastNeK_concrete _ ' ' (by decide) (by decide))
  have h4 : hasKE ("/100)\n\n".toList
      ++ ("💡 RECOMMENDATION: ".toList ++ specRecLabel rs)) = false :=
    hasKE_append_false _ h5 _ (by decide)
      (lastNeK_concrete _ '\n' (by decide) (by decide))
  have h3 : hasKE (jsRoundStr rs ++ ("/100)\n\n".toList
      ++ ("💡 RECOMMENDATION: ".toList ++ specRecLabel rs))) = false :=
    hasKE_append_false _ h4 _ (hasKE_false_of_no_K _ (jsRoundStr_no_K rs))
      (lastNeK_of_no_K _ (jsRoundStr_no_K rs))
  have h2 : hasKE (" RUG PULL RISK (".toList ++ (jsRoundStr rs
      ++ ("/100)\n\n".toList
      ++ ("💡 RECOMMENDATION: ".toList ++ specRecLabel rs)))) = false :=
    hasKE_append_false _ h3 _ (by decide)
      (lastNeK_concrete _ '(' (by decide) (by decide))
  have h1 : hasKE (getRiskLevel rs ++ (" RUG PULL RISK (".toList ++ (jsRoundStr rs
      ++ ("/100)\n\n".toList
      ++ ("💡 RECOMMENDATION: ".toList ++ specRecLabel rs))))) = false :=
    hasKE_append_false _ h2 _ (hasKE_getRiskLevel rs) (getRiskLevel_lastNeK rs)
  exact hasKE_append_false _ h1 _ (by decide)
    (lastNeK_concrete _ ' ' (by decide) (by decide))

/-- with no red flags the summary is headline plus recommendation only, and
it does not contain `KEY RED FLAGS`. -/
theorem summary_no_key_of_empty (rs : JSNum) (oc so co : SubAnalysis)
    (hf : orNil oc.redFlags ++ orNil so.redFlags ++ orNil co.redFlags = []) :
    containsSub "KEY RED FLAGS".toList (generateSummary rs oc so co) = false := by
  have hs : generateSummary rs oc so co =
      "🚨 RUG PULL ALERT: This token has ".toList ++ (getRiskLevel rs
      ++ (" RUG PULL RISK (".toList ++ (jsRoundStr rs ++ ("/100)\n\n".toList
      ++ ("💡 RECOMMENDATION: ".toList ++ specRecLabel rs))))) := by
    rw [generateSummary_eq_spec, hf]
    simp [summaryFlagSection, summaryHeadline, summaryRecLine, List.append_assoc]
  cases hcc : containsSub "KEY RED FLAGS".toList (generateSummary rs oc so co) with
  | false => rfl
  | true =>
    have h1 := hasKE_of_key _ hcc
    rw [hs, hasKE_summary_empty rs] at h1
    exact absurd h1 (by simp)

/-- containsSub finds a needle sitting inside the middle of three appended
blocks. -/
theorem containsSub_append_middle (n A B C D : List Char) :
    containsSub n (A ++ (B ++ n ++ C) ++ D) = true :=
  containsSub_true_of_split n (A ++ B) (C ++ D) _ (by simp [List.append_assoc])

/-- a non-empty flag section opens with `KEY RED FLAGS` after its marker. -/
theorem summaryFlagSection_split (flags : List JSStr) (hf : flags ≠ []) :
    ∃ rest : List Char, summaryFlagSection flags =
      "🔴 ".toList ++ "KEY RED FLAGS".toList ++ rest := by
  unfold summaryFlagSection
  rw [if_neg hf]
  refine ⟨":\n".toList ++ (joinMap (fun f => "- ".toList ++ f ++ "\n".toList)
      (flags.take 5)
    ++ ((if flags.length > 5 then
          "- ...and ".toList ++ natToStr (flags.length - 5) ++ " more issues\n".toList
        else []) ++ "\n".toList)), ?_⟩
  have hdec : "🔴 KEY RED FLAGS:\n".toList =
      "🔴 ".toList ++ "KEY RED FLAGS".toList ++ ":\n".toList := by decide
  rw [hdec]
  simp [List.append_assoc]

/-- with at least one red flag the summary contains `KEY RED FLAGS`. -/
theorem summary_key_of_nonempty (rs : JSNum) (oc so co : SubAnalysis)
    (hf : orNil oc.redFlags ++ orNil so.redFlags ++ orNil co.redFlags ≠ []) :
    containsSub "KEY RED FLAGS".toList (generateSummary rs oc so co) = true := by
  obtain ⟨rest, hrest⟩ := summaryFlagSection_split _ hf
  rw [generateSummary_eq_spec, hrest]
  exact containsSub_append_middle _ (summaryHeadline rs) "🔴 ".toList rest
    (summaryRecLine rs)

/-- C9: the summary is always headline, key-red-flags section and one-line
recommendation, where the section (per `summaryFlagSection`) is built from the
concatenation of the three red-flag lists (on-chain, social, code, in order,
not deduplicated), lists at most the first five flags verbatim with an
`...and N more issues` line when more than five exist, and is empty when
there are no flags; the output contains `KEY RED FLAGS` exactly when that
concatenation is non-empty; and the final line (per `summaryRecLine`) is
chosen by the 80/60/40 bands from the labels DO NOT BUY, EXTREME CAUTION,
MODERATE CAUTION, APPEARS SAFE. -/
theorem C9_summary_structure (rs : JSNum) (oc so co : SubAnalysis) :
    generateSummary rs oc so co =
      summaryHeadline rs
      ++ summaryFlagSection
          (orNil oc.redFlags ++ orNil so.redFlags ++ orNil co.redFlags)
      ++ summaryRecLine rs ∧
    (orNil oc.redFlags ++ orNil so.redFlags ++ orNil co.redFlags ≠ [] →
      containsSub "KEY RED FLAGS".toList (generateSummary rs oc so co) = true) ∧
    (orNil oc.redFlags ++ orNil so.redFlags ++ orNil co.redFlags = [] →
      containsSub "KEY RED FLAGS".toList (generateSummary rs oc so co) = false) :=
  ⟨generateSummary_eq_spec rs oc so co, summary_key_of_nonempty rs oc so co,
    summary_no_key_of_empty rs oc so co⟩

/-- C9 witness: one red flag makes the summary contain `KEY RED FLAGS`; no
red flags leaves it out. -/
theorem C9_witness :
    containsSub "KEY RED FLAGS".toList
      (generateSummary (.num 90) ⟨some (.num 90), some ["flag one".toList]⟩
        ⟨some (.num 0), none⟩ ⟨some (.num 0), none⟩) = true ∧
    containsSub "KEY RED FLAGS".toList
      (generateSummary (.num 10) ⟨some (.num 10), some []⟩
        ⟨none, none⟩ ⟨none, none⟩) = false :=
  ⟨(C9_summary_structure (.num 90) ⟨some (.num 90), some ["flag one".toList]⟩
      ⟨some (.num 0), none⟩ ⟨some (.num 0), none⟩).2.1 (by decide),
    (C9_summary_structure (.num 10) ⟨some (.num 10), some []⟩
      ⟨none, none⟩ ⟨none, none⟩).2.2 (by decide)⟩
